import Mathlib

/-!
# Weather-Dashboard: Spatial Grid Query Engine — formal model

A shallow embedding of the query engine of `src/app.py` (an IMD weather
data dashboard).  Coordinates, grid steps and observation values are
modelled as rationals (`ℚ`): the Python source manipulates decimal
literals and differences/comparisons of them, all of which are exact at
the granularity the claims are stated (tolerance `1e-6`).  Calendar
dates are modelled as natural numbers (e.g. `20200101` for 2020-01-01):
only equality and order of dates are used by the code.  Fallible paths
(`st.error` + `st.stop`) are modelled with `Except`.
-/

/-- Per-parameter grid geometry, from the `GRID_CONFIG` dict of
`src/app.py` (lines 12–34). -/
structure GridConfig where
  resolution : ℚ
  lat_min : ℚ
  lat_max : ℚ
  lon_min : ℚ
  lon_max : ℚ
  deriving Repr, DecidableEq

/-- `GRID_CONFIG["rain"]`. -/
def rainConfig : GridConfig :=
  { resolution := 0.25, lat_min := 6.5, lat_max := 38.5,
    lon_min := 66.5, lon_max := 100.0 }

/-- `GRID_CONFIG["tmax"]`. -/
def tmaxConfig : GridConfig :=
  { resolution := 1.0, lat_min := 7.5, lat_max := 37.5,
    lon_min := 67.5, lon_max := 97.5 }

/-- `GRID_CONFIG["tmin"]`. -/
def tminConfig : GridConfig :=
  { resolution := 1.0, lat_min := 7.5, lat_max := 37.5,
    lon_min := 67.5, lon_max := 97.5 }

/-- The `GRID_CONFIG` dictionary of `src/app.py`, as a partial map from
parameter name to geometry. -/
def GRID_CONFIG (parameter : String) : Option GridConfig :=
  if parameter = "rain" then some rainConfig
  else if parameter = "tmax" then some tmaxConfig
  else if parameter = "tmin" then some tminConfig
  else none

/-- One row of a loaded year dataframe, after `load_year_data`:
`date` parsed to a calendar day, `lat`/`lon` numeric, and the value
column for the selected parameter.  A missing (NaN) value cell is
`none`. -/
structure Record where
  date : ℕ
  lat : ℚ
  lon : ℚ
  value : Option ℚ
  deriving Repr, DecidableEq

/-- The observation shown by the dashboard on a successful lookup
(Description tab, lines 158–168 of `src/app.py`): the value of the
matched row, and the `exact` flag (the success banner reads
"Exact Grid Point Found" — the code has no non-exact success path). -/
structure Observation where
  value : Option ℚ
  exact : Bool
  deriving Repr, DecidableEq

/-- The failure outcomes of the main query logic of `src/app.py`
(each is an `st.error`/`st.warning` followed by `st.stop`, or the
`except ValueError` handler). -/
inductive QueryError where
  | notNumeric
  | latOutOfBounds
  | lonOutOfBounds
  | noDataForDate
  | gridPointNotFound
  deriving Repr, DecidableEq

/-- The exact message text each failure prints in `src/app.py`. -/
def QueryError.message : QueryError → String
  | .notNumeric => "Latitude and Longitude must be numeric."
  | .latOutOfBounds => "Latitude outside IMD bounds."
  | .lonOutOfBounds => "Longitude outside IMD bounds."
  | .noDataForDate => "No data for selected date."
  | .gridPointNotFound => "Exact grid point not found in dataset."

deriving instance DecidableEq for Except

/-- `epsilon = 1e-6` (line 143 of `src/app.py`). -/
def epsilon : ℚ := 1 / 1000000

/-- Bounds check of `src/app.py` lines 127–133: latitude first, then
longitude, each tested non-strictly against the config interval. -/
def boundsCheck (config : GridConfig) (lat_val lon_val : ℚ) :
    Except QueryError Unit :=
  if ¬ (config.lat_min ≤ lat_val ∧ lat_val ≤ config.lat_max) then
    .error .latOutOfBounds
  else if ¬ (config.lon_min ≤ lon_val ∧ lon_val ≤ config.lon_max) then
    .error .lonOutOfBounds
  else .ok ()

/-- The coordinate predicate of the exact-match filter (lines 144–147):
both coordinates within `epsilon` of the query point. -/
def coordMatch (lat_val lon_val : ℚ) (r : Record) : Bool :=
  if |r.lat - lat_val| < epsilon ∧ |r.lon - lon_val| < epsilon then true else false

/-- Point lookup of `src/app.py` lines 127–153: bounds check, filter to
the selected date (empty → "No data for selected date"), then exact
match with tolerance `epsilon` (empty → "Exact grid point not found in
dataset"), returning the first matching row's value. -/
def lookup (config : GridConfig) (df : List Record) (lat_val lon_val : ℚ)
    (date : ℕ) : Except QueryError Observation :=
  match boundsCheck config lat_val lon_val with
  | .error e => .error e
  | .ok _ =>
    if (df.filter (fun r => r.date == date)).isEmpty then .error .noDataForDate
    else
      match (df.filter (fun r => r.date == date)).filter (coordMatch lat_val lon_val) with
      | [] => .error .gridPointNotFound
      | r :: _ => .ok { value := r.value, exact := true }

/-- Date order on records: the sort key of `sort_values("date")`
(line 176 of `src/app.py`). -/
def byDate (a b : Record) : Prop := a.date ≤ b.date

instance : DecidableRel byDate := fun a b => Nat.decLe a.date b.date

instance : IsTotal Record byDate := ⟨fun a b => Nat.le_total a.date b.date⟩

instance : IsTrans Record byDate := ⟨fun _ _ _ h h' => Nat.le_trans h h'⟩

/-- The Tabular-tab time series of `src/app.py` lines 171–176: all rows
of the year whose coordinates match the query point within `epsilon`,
sorted by date ascending. -/
def all_data (df : List Record) (lat_val lon_val : ℚ) : List Record :=
  List.insertionSort byDate (df.filter (coordMatch lat_val lon_val))

/-- Failure outcome of the date-range series contract. -/
inductive RangeError where
  | invalidRange
  deriving Repr, DecidableEq

/-- Modelled from the spec: the date-range contract of `series`
(RangeAggregator, contract A) is not implemented in `src/app.py` — the
Tabular tab extracts the whole loaded year (`all_data`) with no
start/end dates.  Per the spec, `series` fails with `InvalidRange` when
`startDate > endDate` and otherwise returns the date-ascending sequence
of records at the resolved coordinate whose dates fall in
`[startDate, endDate]`. -/
def series (df : List Record) (lat_val lon_val : ℚ)
    (startDate endDate : ℕ) : Except RangeError (List Record) :=
  if endDate < startDate then .error .invalidRange
  else
    .ok (List.insertionSort byDate
      (df.filter (fun r =>
        coordMatch lat_val lon_val r &&
          (decide (startDate ≤ r.date) && decide (r.date ≤ endDate)))))

/-- Modelled from the spec: the `ResolvedCoordinate` produced by
`GridResolver.resolve` — `src/app.py` contains no snapping logic, only
the `GRID_CONFIG` geometry it would consult and the bounds check. -/
structure ResolvedCoordinate where
  requestedLat : ℚ
  requestedLon : ℚ
  snappedLat : ℚ
  snappedLon : ℚ
  onLattice : Bool
  deriving Repr, DecidableEq

/-- Clamp `v` into `[lo, hi]`. -/
def clampQ (lo hi v : ℚ) : ℚ := max lo (min hi v)

/-- Modelled from the spec: one axis of the snapping step of `resolve`
(`snapped = min + round((v - min) / resolution) * resolution`, clamped
into `[min, max]`). -/
def snapToLattice (vmin vmax resolution v : ℚ) : ℚ :=
  clampQ vmin vmax (vmin + (round ((v - vmin) / resolution) : ℤ) * resolution)

/-- Modelled from the spec: the distance from `v` to the nearest
lattice point of step `resolution` anchored at `vmin`, used for the
advisory `onLattice` classification. -/
def latticeGap (vmin resolution v : ℚ) : ℚ :=
  |v - (vmin + (round ((v - vmin) / resolution) : ℤ) * resolution)|

/-- Modelled from the spec: `GridResolver.resolve` — absent from
`src/app.py`, whose query path goes straight from the bounds check to
the exact-match lookup.  Bounds are checked exactly as the code's
`boundsCheck` (lines 127–133); snapping and the `onLattice` flag follow
the spec's algorithm with tolerance `1e-6`. -/
def resolve (config : GridConfig) (lat lon : ℚ) :
    Except QueryError ResolvedCoordinate :=
  match boundsCheck config lat lon with
  | .error e => .error e
  | .ok _ =>
    .ok { requestedLat := lat
          requestedLon := lon
          snappedLat := snapToLattice config.lat_min config.lat_max config.resolution lat
          snappedLon := snapToLattice config.lon_min config.lon_max config.resolution lon
          onLattice :=
            if latticeGap config.lat_min config.resolution lat < epsilon ∧
               latticeGap config.lon_min config.resolution lon < epsilon
            then true else false }

/-- One raw row of a per-year parquet file as read at line 77 of
`src/app.py`: the `date` cell (already a calendar day in the stored
data; `pd.to_datetime` on such a column is the identity, modelled so),
the `lat`/`lon` cells as stored text, and the value cell for the
selected parameter (missing → `none`). -/
structure RawRow where
  date : ℕ
  lat : String
  lon : String
  value : Option ℚ
  deriving Repr, DecidableEq

/-- Numeric value of a run of decimal digit characters. -/
def digitsToNat (cs : List Char) : ℕ :=
  cs.foldl (fun a c => 10 * a + (c.toNat - 48)) 0

/-- Syntactic phase of Python `float()` / `pd.to_numeric` on a plain
decimal literal with no sign: integer digits, optional point, fraction
digits (at least one digit overall).  Returns the integer part, the
fraction digits' value and the fraction length. -/
def parseUnsigned (cs : List Char) : Option (ℕ × ℕ × ℕ) :=
  let ip := cs.takeWhile Char.isDigit
  match cs.dropWhile Char.isDigit with
  | [] => if ip.isEmpty then none else some (digitsToNat ip, 0, 0)
  | '.' :: frac =>
    if frac.all Char.isDigit && !(ip.isEmpty && frac.isEmpty) then
      some (digitsToNat ip, digitsToNat frac, frac.length)
    else none
  | _ => none

/-- Syntactic phase of Python `float()` on a string: strip spaces,
optional sign, then an unsigned decimal literal.  Scientific notation
and the inf/nan spellings are not modelled — no claim depends on them,
only on whether parsing succeeds or raises `ValueError`. -/
def parseFloatLit (s : String) : Option (Bool × ℕ × ℕ × ℕ) :=
  match ((s.data.dropWhile (· = ' ')).reverse.dropWhile (· = ' ')).reverse with
  | '-' :: rest => (parseUnsigned rest).map (fun t => (true, t))
  | '+' :: rest => (parseUnsigned rest).map (fun t => (false, t))
  | rest => (parseUnsigned rest).map (fun t => (false, t))

/-- The rational denoted by a parsed decimal literal. -/
def floatVal : Bool × ℕ × ℕ × ℕ → ℚ
  | (sign, ip, fv, fl) => (if sign then -1 else 1) * ((ip : ℚ) + (fv : ℚ) / 10 ^ fl)

/-- Model of Python `float(str)` (and of `pd.to_numeric` on one cell):
`none` models a raised `ValueError`. -/
def pyFloat (s : String) : Option ℚ := (parseFloatLit s).map floatVal

/-- `load_year_data` of `src/app.py` lines 74–81, after the parquet
read: `pd.to_datetime` on the date column (identity on already-parsed
days), `pd.to_numeric` on the `lat` column and on the `lon` column —
called without `errors="coerce"`, so one unparseable cell raises and
the whole load fails (`none`).  The value column is passed through
unchanged. -/
def load_year_data : List RawRow → Option (List Record)
  | [] => some []
  | row :: rest =>
    match pyFloat row.lat, pyFloat row.lon, load_year_data rest with
    | some la, some lo, some recs =>
      some ({ date := row.date, lat := la, lon := lo, value := row.value } :: recs)
    | _, _, _ => none

/-- The main query path of `src/app.py`, lines 123–205: parse the two
text inputs with Python `float()` — a `ValueError` from either parse
lands in the handler at lines 204–205, which prints "Latitude and
Longitude must be numeric." — then run the bounds check, date filter
and exact-match lookup. -/
def mainQuery (config : GridConfig) (df : List Record)
    (latStr lonStr : String) (date : ℕ) : Except QueryError Observation :=
  match pyFloat latStr with
  | none => .error .notNumeric
  | some lat_val =>
    match pyFloat lonStr with
    | none => .error .notNumeric
    | some lon_val => lookup config df lat_val lon_val date

/-! ## Helper lemmas -/

theorem coordMatch_iff (lat_val lon_val : ℚ) (r : Record) :
    coordMatch lat_val lon_val r = true ↔
      |r.lat - lat_val| < epsilon ∧ |r.lon - lon_val| < epsilon := by
  simp [coordMatch]

theorem boundsCheck_ok_iff (config : GridConfig) (lat_val lon_val : ℚ) :
    boundsCheck config lat_val lon_val = .ok () ↔
      (config.lat_min ≤ lat_val ∧ lat_val ≤ config.lat_max ∧
       config.lon_min ≤ lon_val ∧ lon_val ≤ config.lon_max) := by
  unfold boundsCheck
  split_ifs with h1 h2 <;> simp_all

theorem boundsCheck_error_or_ok (config : GridConfig) (lat_val lon_val : ℚ) :
    (∃ e, boundsCheck config lat_val lon_val = .error e) ∨
      boundsCheck config lat_val lon_val = .ok () := by
  unfold boundsCheck
  split_ifs <;> simp

theorem head?_filter_eq_find? (p : α → Bool) :
    ∀ l : List α, (l.filter p).head? = l.find? p
  | [] => rfl
  | a :: t => by
    by_cases h : p a <;>
      simp [List.filter_cons, h, List.find?_cons, head?_filter_eq_find? p t]

/-! ## Claim theorems -/

/-- C3: for every parameter and every numeric query coordinate,
`resolve` fails with an out-of-bounds error exactly when the latitude
lies strictly outside `[lat_min, lat_max]` or the longitude lies
strictly outside `[lon_min, lon_max]` of that parameter's `GridConfig`,
and succeeds on every coordinate inside, the boundary values
included. -/
theorem C3_resolve_bounds :
    ∀ (p : String) (config : GridConfig), GRID_CONFIG p = some config →
      ∀ lat lon : ℚ,
        ((∃ e, resolve config lat lon = .error e) ↔
          (lat < config.lat_min ∨ config.lat_max < lat ∨
           lon < config.lon_min ∨ config.lon_max < lon)) ∧
        (config.lat_min ≤ lat → lat ≤ config.lat_max →
         config.lon_min ≤ lon → lon ≤ config.lon_max →
         ∃ rc, resolve config lat lon = .ok rc) := by
  intro p config _hp lat lon
  have herr : (∃ e, boundsCheck config lat lon = .error e) ↔
      (lat < config.lat_min ∨ config.lat_max < lat ∨
       lon < config.lon_min ∨ config.lon_max < lon) := by
    unfold boundsCheck
    by_cases h1 : config.lat_min ≤ lat ∧ lat ≤ config.lat_max
    · by_cases h2 : config.lon_min ≤ lon ∧ lon ≤ config.lon_max
      · rw [if_neg (not_not_intro h1), if_neg (not_not_intro h2)]
        simp only [reduceCtorEq, exists_false, false_iff]
        push_neg
        exact ⟨h1.1, h1.2, h2.1, h2.2⟩
      · rw [if_neg (not_not_intro h1), if_pos h2]
        rw [not_and_or, not_le, not_le] at h2
        simp only [Except.error.injEq, exists_eq', true_iff]
        tauto
    · rw [if_pos h1]
      rw [not_and_or, not_le, not_le] at h1
      simp only [Except.error.injEq, exists_eq', true_iff]
      tauto
  constructor
  · rw [← herr]
    unfold resolve
    rcases boundsCheck_error_or_ok config lat lon with ⟨e, he⟩ | hok <;>
      [rw [he]; rw [hok]] <;> simp
  · intro h1 h2 h3 h4
    unfold resolve
    rw [(boundsCheck_ok_iff config lat lon).mpr ⟨h1, h2, h3, h4⟩]
    exact ⟨_, rfl⟩

/-- C3 witness: for the `rain` parameter, the boundary corner
`(6.5, 66.5)` resolves successfully, and the strictly-outside point
`(5, 80)` fails. -/
theorem C3_resolve_bounds_witness :
    (∃ rc, resolve rainConfig 6.5 66.5 = .ok rc) ∧
      (∃ e, resolve rainConfig 5 80 = .error e) := by
  constructor
  · exact (C3_resolve_bounds "rain" rainConfig rfl 6.5 66.5).2
      (by norm_num [rainConfig]) (by norm_num [rainConfig])
      (by norm_num [rainConfig]) (by norm_num [rainConfig])
  · exact (C3_resolve_bounds "rain" rainConfig rfl 5 80).1.mpr
      (Or.inl (by norm_num [rainConfig]))

/-- C10: whenever Python `float()` fails on either coordinate input
string, the query path reports "Latitude and Longitude must be
numeric." and produces no observation. -/
theorem C10_nonnumeric_inputs (config : GridConfig) (df : List Record)
    (latStr lonStr : String) (date : ℕ)
    (h : pyFloat latStr = none ∨ pyFloat lonStr = none) :
    mainQuery config df latStr lonStr date = .error .notNumeric := by
  rcases h with h | h
  · simp [mainQuery, h]
  · cases hl : pyFloat latStr <;> simp [mainQuery, h, hl]

/-- C10 witness: the non-numeric latitude input "abc" (with a numeric
longitude) yields exactly the numeric-input error. -/
theorem C10_nonnumeric_inputs_witness :
    mainQuery rainConfig [] "abc" "80.25" 20200101 = .error .notNumeric :=
  C10_nonnumeric_inputs rainConfig [] "abc" "80.25" 20200101 (Or.inl rfl)


/-- C1 fails on the code: for the date 2020-01-01 the filtered,
value-defined candidate set is the non-empty `[(19.5, 80.25, 12.4)]`,
yet the query at the in-bounds lattice point `(19.75, 80.25)` does not
return the nearest candidate — it fails with "Exact grid point not
found in dataset". -/
theorem C1_counterexample :
    lookup rainConfig [⟨20200101, 19.5, 80.25, some 12.4⟩] 19.75 80.25 20200101
        = .error .gridPointNotFound ∧
      ([⟨20200101, 19.5, 80.25, some 12.4⟩] : List Record).filter
          (fun r => r.date == 20200101) = [⟨20200101, 19.5, 80.25, some 12.4⟩] ∧
      (some (12.4 : ℚ)).isSome = true := by
  refine ⟨?_, by simp, rfl⟩
  norm_num [lookup, boundsCheck, rainConfig, List.filter_cons, List.filter_nil,
    coordMatch_iff, coordMatch, epsilon, abs_lt, List.isEmpty]

/-- C1 amended: for an in-bounds query whose date-filtered candidate
set is non-empty but contains no record within `epsilon` of the query
coordinate, `lookup` fails with `gridPointNotFound` ("Exact grid point
not found in dataset") — the code has no nearest-neighbor fallback. -/
theorem C1_amended_no_fallback (config : GridConfig) (df : List Record)
    (lat_val lon_val : ℚ) (date : ℕ)
    (hb : boundsCheck config lat_val lon_val = .ok ())
    (hne : df.filter (fun r => r.date == date) ≠ [])
    (hfar : ∀ r ∈ df, r.date = date →
      ¬(|r.lat - lat_val| < epsilon ∧ |r.lon - lon_val| < epsilon)) :
    lookup config df lat_val lon_val date = .error .gridPointNotFound := by
  unfold lookup
  rw [hb]
  have hempty : (df.filter (fun r => r.date == date)).filter
      (coordMatch lat_val lon_val) = [] := by
    rw [List.filter_eq_nil_iff]
    intro r hr
    have hmem := List.mem_filter.mp hr
    have hdate : r.date = date := by simpa using hmem.2
    intro hc
    exact hfar r hmem.1 hdate ((coordMatch_iff lat_val lon_val r).mp hc)
  rw [if_neg (by simpa [List.isEmpty_iff] using hne), hempty]

/-- C1 amended witness: a dataset with one candidate on the date, none
within tolerance of the in-bounds query `(19.75, 80.25)`, and the
lookup fails with the not-found error. -/
theorem C1_amended_no_fallback_witness :
    lookup rainConfig [⟨20200101, 19.5, 80.25, some 12.4⟩] 19.75 80.25 20200101
      = .error .gridPointNotFound := by
  refine C1_amended_no_fallback rainConfig _ 19.75 80.25 20200101
    (by norm_num [boundsCheck, rainConfig]) (by simp) ?_
  intro r hr _
  rw [List.mem_singleton] at hr
  subst hr
  norm_num [epsilon, abs_lt]

/-- C4: if some record on the query date matches the query coordinate
within `epsilon` on both axes, `lookup` returns an observation flagged
`exact = true`, carrying the value of such a record (the first match in
dataset order). -/
theorem C4_exact_match (config : GridConfig) (df : List Record)
    (lat_val lon_val : ℚ) (date : ℕ)
    (hb : boundsCheck config lat_val lon_val = .ok ())
    (hex : ∃ r ∈ df, r.date = date ∧ |r.lat - lat_val| < epsilon ∧
      |r.lon - lon_val| < epsilon) :
    ∃ r, (r ∈ df ∧ r.date = date ∧ |r.lat - lat_val| < epsilon ∧
        |r.lon - lon_val| < epsilon) ∧
      lookup config df lat_val lon_val date
        = .ok { value := r.value, exact := true } := by
  obtain ⟨r0, hr0df, hr0d, hr0lat, hr0lon⟩ := hex
  have hr0m : r0 ∈ (df.filter (fun r => r.date == date)).filter
      (coordMatch lat_val lon_val) := by
    rw [List.mem_filter, List.mem_filter]
    exact ⟨⟨hr0df, by simp [hr0d]⟩, (coordMatch_iff _ _ _).mpr ⟨hr0lat, hr0lon⟩⟩
  cases hm : (df.filter (fun r => r.date == date)).filter
      (coordMatch lat_val lon_val) with
  | nil => rw [hm] at hr0m; cases hr0m
  | cons r1 t =>
    have hr1m : r1 ∈ (df.filter (fun r => r.date == date)).filter
        (coordMatch lat_val lon_val) := by
      rw [hm]; exact List.mem_cons_self r1 t
    have hr1 := List.mem_filter.mp hr1m
    have hr1' := List.mem_filter.mp hr1.1
    refine ⟨r1, ⟨hr1'.1, by simpa using hr1'.2,
      (coordMatch_iff _ _ _).mp hr1.2⟩, ?_⟩
    unfold lookup
    rw [hb]
    have hne : ¬ (df.filter (fun r => r.date == date)).isEmpty = true := by
      intro h
      rw [List.isEmpty_iff] at h
      rw [h] at hm
      simp at hm
    rw [if_neg hne, hm]

/-- C4 witness: the dataset holds an exact record at `(19.5, 80.25)`
for 2020-01-01 and the query at that point returns its value 12.4,
flagged exact. -/
theorem C4_exact_match_witness :
    ∃ r : Record,
      (r ∈ ([⟨20200101, 19.5, 80.25, some 12.4⟩] : List Record) ∧
        r.date = 20200101 ∧ |r.lat - 19.5| < epsilon ∧
        |r.lon - 80.25| < epsilon) ∧
      lookup rainConfig [⟨20200101, 19.5, 80.25, some 12.4⟩] 19.5 80.25 20200101
        = .ok { value := r.value, exact := true } := by
  refine C4_exact_match rainConfig _ 19.5 80.25 20200101
    (by norm_num [boundsCheck, rainConfig]) ?_
  exact ⟨⟨20200101, 19.5, 80.25, some 12.4⟩, List.mem_singleton_self _, rfl,
    by norm_num [epsilon], by norm_num [epsilon]⟩

/-- C5 fails on the code: on 2020-01-01 every record for the date has
an undefined value, yet the lookup does not fail with the no-data
warning — it returns an observation carrying the undefined value. -/
theorem C5_counterexample :
    lookup rainConfig [⟨20200101, 19.5, 80.25, none⟩] 19.5 80.25 20200101
      = .ok { value := none, exact := true } := by
  norm_num [lookup, boundsCheck, rainConfig, List.filter_cons, List.filter_nil,
    coordMatch_iff, coordMatch, epsilon, abs_lt, List.isEmpty]

/-- C5 amended: for an in-bounds query, `lookup` fails with
`noDataForDate` ("No data for selected date.") exactly when no record's
date equals the query date — records whose value is undefined are not
excluded and do not trigger this failure. -/
theorem C5_amended_no_data (config : GridConfig) (df : List Record)
    (lat_val lon_val : ℚ) (date : ℕ)
    (hb : boundsCheck config lat_val lon_val = .ok ()) :
    lookup config df lat_val lon_val date = .error .noDataForDate ↔
      ∀ r ∈ df, r.date ≠ date := by
  unfold lookup
  rw [hb]
  by_cases he : (df.filter (fun r => r.date == date)).isEmpty = true
  · rw [if_pos he]
    rw [List.isEmpty_iff, List.filter_eq_nil_iff] at he
    constructor
    · intro _ r hr
      simpa using he r hr
    · intro _
      rfl
  · rw [if_neg he]
    have hne : ∃ r ∈ df, r.date = date := by
      have hfil : df.filter (fun r => r.date == date) ≠ [] := by
        intro h
        rw [← List.isEmpty_iff] at h
        exact he h
      obtain ⟨a, ha⟩ := List.exists_mem_of_ne_nil _ hfil
      have := List.mem_filter.mp ha
      exact ⟨a, this.1, by simpa using this.2⟩
    cases hm : (df.filter (fun r => r.date == date)).filter
        (coordMatch lat_val lon_val) with
    | nil =>
      constructor
      · intro h
        simp at h
      · intro hall
        exfalso
        obtain ⟨r, hr, hd⟩ := hne
        exact hall r hr hd
    | cons r1 t =>
      constructor
      · intro h
        simp at h
      · intro hall
        exfalso
        obtain ⟨r, hr, hd⟩ := hne
        exact hall r hr hd

/-- C5 amended witness: the empty dataset has no record on the query
date, and the lookup reports "No data for selected date." -/
theorem C5_amended_no_data_witness :
    lookup rainConfig [] 19.5 80.25 20200101 = .error .noDataForDate :=
  (C5_amended_no_data rainConfig [] 19.5 80.25 20200101
    (by norm_num [boundsCheck, rainConfig])).mpr (by simp)

/-- C9: when the query succeeds via the tolerant exact match, the
observation returned is the first record in dataset order that lies on
the query date and matches the coordinate within `epsilon`
(`row.iloc[0]` of the filtered frame). -/
theorem C9_first_match (config : GridConfig) (df : List Record)
    (lat_val lon_val : ℚ) (date : ℕ) (r : Record)
    (hb : boundsCheck config lat_val lon_val = .ok ())
    (hf : df.find? (fun x => coordMatch lat_val lon_val x && (x.date == date))
      = some r) :
    lookup config df lat_val lon_val date
      = .ok { value := r.value, exact := true } := by
  have hcomb : (df.filter (fun r => r.date == date)).filter
      (coordMatch lat_val lon_val)
      = df.filter (fun x => coordMatch lat_val lon_val x && (x.date == date)) := by
    rw [List.filter_filter]
  have hhead : ((df.filter (fun r => r.date == date)).filter
      (coordMatch lat_val lon_val)).head? = some r := by
    rw [hcomb, head?_filter_eq_find?, hf]
  cases hm : (df.filter (fun r => r.date == date)).filter
      (coordMatch lat_val lon_val) with
  | nil => rw [hm] at hhead; simp at hhead
  | cons r1 t =>
    rw [hm] at hhead
    have hr1 : r1 = r := by simpa using hhead
    subst hr1
    unfold lookup
    rw [hb]
    have hne : ¬ (df.filter (fun r => r.date == date)).isEmpty = true := by
      intro h
      rw [List.isEmpty_iff] at h
      rw [h] at hm
      simp at hm
    rw [if_neg hne, hm]

/-- C9 witness: two records at the matching coordinate on the same
date; the lookup returns the value 1.0 of the one that occurs first in
dataset order, not the later 2.0. -/
theorem C9_first_match_witness :
    lookup rainConfig
        [⟨20200101, 19.5, 80.25, some 1.0⟩, ⟨20200101, 19.5, 80.25, some 2.0⟩]
        19.5 80.25 20200101
      = .ok { value := some 1.0, exact := true } := by
  refine C9_first_match rainConfig _ 19.5 80.25 20200101
    ⟨20200101, 19.5, 80.25, some 1.0⟩
    (by norm_num [boundsCheck, rainConfig]) ?_
  norm_num [List.find?_cons, coordMatch, epsilon, abs_lt]

/-- C6: for every dataset and query coordinate, the time series shown
in the Tabular tab (and plotted in the Graphical tab) is ordered by
date ascending. -/
theorem C6_series_sorted (df : List Record) (lat_val lon_val : ℚ) :
    (all_data df lat_val lon_val).Sorted byDate :=
  List.sorted_insertionSort byDate (df.filter (coordMatch lat_val lon_val))

/-- C7: `series` fails with `InvalidRange` exactly when
`startDate > endDate`, and returns the empty sequence — not a failure —
when the range is valid but no record's date falls inside it. -/
theorem C7_series_range (df : List Record) (lat_val lon_val : ℚ)
    (startDate endDate : ℕ) :
    ((∃ e, series df lat_val lon_val startDate endDate = .error e) ↔
       endDate < startDate) ∧
    (startDate ≤ endDate →
     (∀ r ∈ df, ¬(startDate ≤ r.date ∧ r.date ≤ endDate)) →
     series df lat_val lon_val startDate endDate = .ok []) := by
  constructor
  · unfold series
    by_cases h : endDate < startDate
    · rw [if_pos h]
      exact iff_of_true ⟨.invalidRange, rfl⟩ h
    · rw [if_neg h]
      simp only [reduceCtorEq, exists_false, false_iff]
      exact h
  · intro hle hout
    unfold series
    rw [if_neg (not_lt.mpr hle)]
    have hfil : df.filter (fun r =>
        coordMatch lat_val lon_val r &&
          (decide (startDate ≤ r.date) && decide (r.date ≤ endDate))) = [] := by
      rw [List.filter_eq_nil_iff]
      intro r hr
      intro hc
      rw [Bool.and_eq_true, Bool.and_eq_true] at hc
      exact hout r hr ⟨of_decide_eq_true hc.2.1, of_decide_eq_true hc.2.2⟩
    rw [hfil]
    rfl

/-- C7 witness: the spec's example range 2020-01-10 > 2020-01-01 fails
with `InvalidRange`, while a valid range containing no record's date
yields the empty sequence. -/
theorem C7_series_range_witness :
    (∃ e, series ([] : List Record) 19.5 80.25 20200110 20200101
      = .error e) ∧
    series [⟨20200115, 19.5, 80.25, some 1.0⟩] 19.5 80.25 20200101 20200110
      = .ok [] := by
  constructor
  · exact (C7_series_range [] 19.5 80.25 20200110 20200101).1.mpr
      (by norm_num)
  · refine (C7_series_range _ 19.5 80.25 20200101 20200110).2 (by norm_num) ?_
    intro r hr
    rw [List.mem_singleton] at hr
    subst hr
    norm_num

theorem snapToLattice_spec (vmin vmax res : ℚ) (hmin : vmin ≤ vmax)
    (k : ℕ) (hk : vmax = vmin + k * res) (v : ℚ) :
    (∃ i : ℤ, snapToLattice vmin vmax res v = vmin + i * res) ∧
      vmin ≤ snapToLattice vmin vmax res v ∧
      snapToLattice vmin vmax res v ≤ vmax := by
  set n : ℤ := round ((v - vmin) / res) with hn
  set c : ℚ := vmin + n * res with hc
  have hsnap : snapToLattice vmin vmax res v = max vmin (min vmax c) := rfl
  refine ⟨?_, ?_, ?_⟩
  · rcases le_total c vmax with h1 | h1
    · rw [hsnap, min_eq_right h1]
      rcases le_total vmin c with h2 | h2
      · rw [max_eq_right h2]
        exact ⟨n, hc⟩
      · rw [max_eq_left h2]
        exact ⟨0, by ring⟩
    · rw [hsnap, min_eq_left h1, max_eq_right hmin]
      exact ⟨(k : ℤ), by rw [hk]; push_cast; ring⟩
  · rw [hsnap]
    exact le_max_left _ _
  · rw [hsnap]
    exact max_le hmin (min_le_left _ _)

theorem resolve_ok_structure (config : GridConfig) (lat lon : ℚ)
    (h1 : config.lat_min ≤ lat) (h2 : lat ≤ config.lat_max)
    (h3 : config.lon_min ≤ lon) (h4 : lon ≤ config.lon_max)
    (k m : ℕ)
    (hk : config.lat_max = config.lat_min + k * config.resolution)
    (hm : config.lon_max = config.lon_min + m * config.resolution) :
    ∃ rc : ResolvedCoordinate,
      resolve config lat lon = .ok rc ∧
      rc.snappedLat = clampQ config.lat_min config.lat_max
        (config.lat_min +
          (round ((lat - config.lat_min) / config.resolution) : ℤ)
            * config.resolution) ∧
      rc.snappedLon = clampQ config.lon_min config.lon_max
        (config.lon_min +
          (round ((lon - config.lon_min) / config.resolution) : ℤ)
            * config.resolution) ∧
      (∃ i : ℤ, rc.snappedLat = config.lat_min + i * config.resolution) ∧
      (∃ j : ℤ, rc.snappedLon = config.lon_min + j * config.resolution) ∧
      config.lat_min ≤ rc.snappedLat ∧ rc.snappedLat ≤ config.lat_max ∧
      config.lon_min ≤ rc.snappedLon ∧ rc.snappedLon ≤ config.lon_max := by
  have hbc : boundsCheck config lat lon = .ok () :=
    (boundsCheck_ok_iff config lat lon).mpr ⟨h1, h2, h3, h4⟩
  obtain ⟨⟨ilat, hlat⟩, hlat1, hlat2⟩ :=
    snapToLattice_spec config.lat_min config.lat_max config.resolution
      (le_trans h1 h2) k hk lat
  obtain ⟨⟨jlon, hlon⟩, hlon1, hlon2⟩ :=
    snapToLattice_spec config.lon_min config.lon_max config.resolution
      (le_trans h3 h4) m hm lon
  refine ⟨{ requestedLat := lat, requestedLon := lon,
            snappedLat := snapToLattice config.lat_min config.lat_max
              config.resolution lat,
            snappedLon := snapToLattice config.lon_min config.lon_max
              config.resolution lon,
            onLattice :=
              if latticeGap config.lat_min config.resolution lat < epsilon ∧
                 latticeGap config.lon_min config.resolution lon < epsilon
              then true else false },
      ?_, rfl, rfl, ⟨ilat, hlat⟩, ⟨jlon, hlon⟩, hlat1, hlat2, hlon1, hlon2⟩
  unfold resolve
  rw [hbc]

/-- C2: for every parameter and every in-bounds coordinate, `resolve`
succeeds and returns `snappedLat = lat_min + round((lat - lat_min) /
resolution) * resolution` (analogously for `lon`), clamped into the
config's interval, so the snapped coordinate lies exactly on the
parameter's lattice and within bounds; in particular for `rain` the
query `(19.51, 80.26)` resolves to `snappedLat = 19.5`,
`snappedLon = 80.25` with `onLattice = false`. -/
theorem C2_resolve_snapping :
    (∀ (p : String) (config : GridConfig), GRID_CONFIG p = some config →
      ∀ lat lon : ℚ,
        config.lat_min ≤ lat → lat ≤ config.lat_max →
        config.lon_min ≤ lon → lon ≤ config.lon_max →
        ∃ rc : ResolvedCoordinate,
          resolve config lat lon = .ok rc ∧
          rc.snappedLat = clampQ config.lat_min config.lat_max
            (config.lat_min +
              (round ((lat - config.lat_min) / config.resolution) : ℤ)
                * config.resolution) ∧
          rc.snappedLon = clampQ config.lon_min config.lon_max
            (config.lon_min +
              (round ((lon - config.lon_min) / config.resolution) : ℤ)
                * config.resolution) ∧
          (∃ i : ℤ, rc.snappedLat = config.lat_min + i * config.resolution) ∧
          (∃ j : ℤ, rc.snappedLon = config.lon_min + j * config.resolution) ∧
          config.lat_min ≤ rc.snappedLat ∧ rc.snappedLat ≤ config.lat_max ∧
          config.lon_min ≤ rc.snappedLon ∧ rc.snappedLon ≤ config.lon_max) ∧
    (∃ rc : ResolvedCoordinate,
      resolve rainConfig 19.51 80.26 = .ok rc ∧
      rc.snappedLat = 19.5 ∧ rc.snappedLon = 80.25 ∧ rc.onLattice = false) := by
  constructor
  · intro p config hp lat lon h1 h2 h3 h4
    unfold GRID_CONFIG at hp
    split_ifs at hp
    · injection hp with hp
      subst hp
      exact resolve_ok_structure rainConfig lat lon h1 h2 h3 h4 128 134
        (by norm_num [rainConfig]) (by norm_num [rainConfig])
    · injection hp with hp
      subst hp
      exact resolve_ok_structure tmaxConfig lat lon h1 h2 h3 h4 30 30
        (by norm_num [tmaxConfig]) (by norm_num [tmaxConfig])
    · injection hp with hp
      subst hp
      exact resolve_ok_structure tminConfig lat lon h1 h2 h3 h4 30 30
        (by norm_num [tminConfig]) (by norm_num [tminConfig])
  · refine ⟨⟨19.51, 80.26, 19.5, 80.25, false⟩, ?_, rfl, rfl, rfl⟩
    unfold resolve
    rw [show boundsCheck rainConfig 19.51 80.26 = .ok () from
      (boundsCheck_ok_iff _ _ _).mpr (by norm_num [rainConfig])]
    have hsl : snapToLattice rainConfig.lat_min rainConfig.lat_max
        rainConfig.resolution 19.51 = 19.5 := by
      norm_num [snapToLattice, clampQ, rainConfig, round_eq, min_def, max_def]
    have hso : snapToLattice rainConfig.lon_min rainConfig.lon_max
        rainConfig.resolution 80.26 = 80.25 := by
      norm_num [snapToLattice, clampQ, rainConfig, round_eq, min_def, max_def]
    have hol : (latticeGap rainConfig.lat_min rainConfig.resolution 19.51
        < epsilon ∧
        latticeGap rainConfig.lon_min rainConfig.resolution 80.26 < epsilon)
        = False := by
      norm_num [latticeGap, rainConfig, round_eq, epsilon, abs_lt]
    rw [Except.ok.injEq, ResolvedCoordinate.mk.injEq]
    refine ⟨rfl, rfl, hsl, hso, ?_⟩
    simp only [hol, if_false]

/-- C2 witness: the general clause applied to the `rain` parameter at
the spec's example query `(19.51, 80.26)`. -/
theorem C2_resolve_snapping_witness :
    ∃ rc : ResolvedCoordinate,
      resolve rainConfig 19.51 80.26 = .ok rc ∧
      rc.snappedLat = clampQ rainConfig.lat_min rainConfig.lat_max
        (rainConfig.lat_min +
          (round ((19.51 - rainConfig.lat_min) / rainConfig.resolution) : ℤ)
            * rainConfig.resolution) ∧
      rc.snappedLon = clampQ rainConfig.lon_min rainConfig.lon_max
        (rainConfig.lon_min +
          (round ((80.26 - rainConfig.lon_min) / rainConfig.resolution) : ℤ)
            * rainConfig.resolution) ∧
      (∃ i : ℤ, rc.snappedLat = rainConfig.lat_min + i * rainConfig.resolution) ∧
      (∃ j : ℤ, rc.snappedLon = rainConfig.lon_min + j * rainConfig.resolution) ∧
      rainConfig.lat_min ≤ rc.snappedLat ∧ rc.snappedLat ≤ rainConfig.lat_max ∧
      rainConfig.lon_min ≤ rc.snappedLon ∧ rc.snappedLon ≤ rainConfig.lon_max :=
  C2_resolve_snapping.1 "rain" rainConfig rfl 19.51 80.26
    (by norm_num [rainConfig]) (by norm_num [rainConfig])
    (by norm_num [rainConfig]) (by norm_num [rainConfig])

theorem pyFloat_19_5 : pyFloat "19.5" = some 19.5 := by
  have h : parseFloatLit "19.5" = some (false, 19, 5, 1) := by rfl
  rw [pyFloat, h]
  simp only [Option.map_some']
  rw [floatVal]
  norm_num

theorem pyFloat_30_0 : pyFloat "30.0" = some 30.0 := by
  have h : parseFloatLit "30.0" = some (false, 30, 0, 1) := by rfl
  rw [pyFloat, h]
  simp only [Option.map_some']
  rw [floatVal]
  norm_num

theorem load_year_data_example :
    load_year_data [⟨20200101, "19.5", "30.0", some 12.4⟩]
      = some [⟨20200101, 19.5, 30.0, some 12.4⟩] := by
  simp [load_year_data, pyFloat_19_5, pyFloat_30_0]

/-- C8 fails on the code: on a dataset whose maximum observed `lon`
is 30 (≤ 40, implausible as a longitude for the domain),
`load_year_data` leaves the columns exactly as loaded — it does not
swap `lat` and `lon` (and has no warning channel at all). -/
theorem C8_counterexample :
    load_year_data [⟨20200101, "19.5", "30.0", some 12.4⟩]
        = some [⟨20200101, 19.5, 30.0, some 12.4⟩] ∧
      load_year_data [⟨20200101, "19.5", "30.0", some 12.4⟩]
        ≠ some [⟨20200101, 30.0, 19.5, some 12.4⟩] ∧
      (30.0 : ℚ) ≤ 40 := by
  refine ⟨load_year_data_example, ?_, by norm_num⟩
  rw [load_year_data_example]
  intro hcon
  rw [Option.some.injEq, List.cons.injEq, Record.mk.injEq] at hcon
  have : (19.5 : ℚ) = 30.0 := hcon.1.2.1
  norm_num at this

/-- C8 amended: `load_year_data` applies no axis-swap correction and
reports no data-quality warning — whenever it succeeds, every output
record keeps its row's `lat` column as `lat` and its `lon` column as
`lon` (numerically coerced), whatever the observed longitude range. -/
theorem C8_amended_no_swap :
    ∀ (rows : List RawRow) (recs : List Record),
      load_year_data rows = some recs →
      List.Forall₂ (fun (row : RawRow) (rec : Record) =>
        rec.date = row.date ∧ pyFloat row.lat = some rec.lat ∧
        pyFloat row.lon = some rec.lon ∧ rec.value = row.value) rows recs := by
  intro rows
  induction rows with
  | nil =>
    intro recs h
    simp only [load_year_data, Option.some.injEq] at h
    subst h
    exact List.Forall₂.nil
  | cons row rest ih =>
    intro recs h
    simp only [load_year_data] at h
    rcases hla : pyFloat row.lat with _ | la <;> rw [hla] at h
    · simp at h
    · rcases hlo : pyFloat row.lon with _ | lo <;> rw [hlo] at h
      · simp at h
      · rcases hrest : load_year_data rest with _ | recs' <;> rw [hrest] at h
        · simp at h
        · simp only [Option.some.injEq] at h
          subst h
          exact List.Forall₂.cons ⟨rfl, hla, hlo, rfl⟩ (ih recs' hrest)

/-- C8 amended witness: the unswapped low-longitude dataset again —
the loaded record keeps `lat = 19.5` from the `lat` column and
`lon = 30.0` from the `lon` column. -/
theorem C8_amended_no_swap_witness :
    List.Forall₂ (fun (row : RawRow) (rec : Record) =>
      rec.date = row.date ∧ pyFloat row.lat = some rec.lat ∧
      pyFloat row.lon = some rec.lon ∧ rec.value = row.value)
      [⟨20200101, "19.5", "30.0", some 12.4⟩]
      [⟨20200101, 19.5, 30.0, some 12.4⟩] :=
  C8_amended_no_swap _ _ load_year_data_example
